import Mathlib

/-!
Verification of the notification-delivery backend
(`backend/app/models.py`, `backend/app/broadcaster.py`, `backend/app/main.py`)
against its design specification.

The Python code is shallowly embedded: the database table is a `List Notification`
threaded through a `SystemState`; the `asyncio.Queue` mailboxes of the Broadcaster
are FIFO lists; the two streaming endpoints (SSE generator and WebSocket handler)
are modelled as explicit step machines driven by a schedule of actions, so that
interleavings of concurrent writer requests with a streaming connection can be
expressed and evaluated.
-/

namespace Spec2Proof

/-- The `notifications` table row (`models.py`, class `Notification`).
`id` is a UUID string, `seq` the BigInteger assigned from the database
sequence, `payload` an opaque JSON value modelled as a string, `created_at`
the optional server-side timestamp modelled as an opaque string. -/
structure Notification where
  id : String
  seq : Int
  type : String
  payload : String
  created_at : Option String
deriving DecidableEq, Repr

/-- The JSON dictionary produced by `Notification.to_dict` in `models.py`:
`{id, seq, type, payload, created_at}`. -/
structure NotifDict where
  id : String
  seq : Int
  type : String
  payload : String
  created_at : Option String
deriving DecidableEq, Repr

/-- `models.py` `Notification.to_dict`: serialises all five columns;
`created_at.isoformat()` on a timestamp is modelled as the identity on the
opaque timestamp string, and `None` stays `None`. -/
def Notification.to_dict (n : Notification) : NotifDict :=
  { id := n.id, seq := n.seq, type := n.type, payload := n.payload,
    created_at := n.created_at }

/-- `broadcaster.py` `Broadcaster`: `_subscribers` is a list of live
`asyncio.Queue`s. A queue is modelled as a FIFO `List NotifDict` keyed by a
fresh identifier (object identity in Python); `nextId` supplies fresh keys. -/
structure Broadcaster where
  subscribers : List (Nat × List NotifDict)
  nextId : Nat
deriving DecidableEq, Repr

/-- `Broadcaster.subscribe`: create a fresh empty queue, append it to
`_subscribers`, return it. -/
def Broadcaster.subscribe (b : Broadcaster) : Nat × Broadcaster :=
  (b.nextId,
   { subscribers := b.subscribers ++ [(b.nextId, [])], nextId := b.nextId + 1 })

/-- `Broadcaster.unsubscribe`: remove the queue if present (`if queue in
self._subscribers: self._subscribers.remove(queue)`); a no-op otherwise. -/
def Broadcaster.unsubscribe (b : Broadcaster) (q : Nat) : Broadcaster :=
  { b with subscribers := b.subscribers.filter (fun s => s.1 ≠ q) }

/-- `Broadcaster.broadcast`: put the message on every live queue. The early
`if not self._subscribers: return` coincides with mapping over the empty
list. -/
def Broadcaster.broadcast (b : Broadcaster) (m : NotifDict) : Broadcaster :=
  { b with subscribers := b.subscribers.map (fun s => (s.1, s.2 ++ [m])) }

/-- `queue.get()` when the queue holds a message: return the front message and
the broadcaster with that message removed from queue `q`; return `none` (the
caller would block) when queue `q` is empty or unknown. -/
def Broadcaster.popFront (b : Broadcaster) (q : Nat) :
    Option NotifDict × Broadcaster :=
  match b.subscribers.lookup q with
  | some (m :: _) =>
      (some m,
       { b with
         subscribers :=
           b.subscribers.map (fun s => if s.1 = q then (s.1, s.2.tail) else s) })
  | _ => (none, b)

/-- The whole in-process server state: the `notifications` table, the next
value of the database sequence `notification_seq`, and the global
`broadcaster` instance of `broadcaster.py`. -/
structure SystemState where
  store : List Notification
  nextSeq : Int
  broadcaster : Broadcaster
deriving DecidableEq, Repr

/-- The comparison realising `ORDER BY seq ASC`. -/
def seqLE (a b : Notification) : Prop :=
  a.seq ≤ b.seq

instance : DecidableRel seqLE :=
  fun a b => Int.decLe a.seq b.seq

instance : IsTotal Notification seqLE :=
  ⟨fun a b => Int.le_total a.seq b.seq⟩

instance : IsTrans Notification seqLE :=
  ⟨fun _ _ _ hab hbc => le_trans hab hbc⟩

/-- The SQLAlchemy query shared by all three read paths in `main.py`:
`db.query(Notification).filter(Notification.seq > after_seq)
.order_by(Notification.seq.asc()).limit(limit).all()`.
The database sort is modelled with a concrete (stable) sorting function. -/
def storeRange (store : List Notification) (after_seq : Int) (limit : Nat) :
    List Notification :=
  (List.insertionSort seqLE
      (store.filter (fun n => decide (after_seq < n.seq)))).take limit

/-- The request body of `POST /api/notifications`: a JSON dict in which the
`type` and `payload` keys may each be absent. -/
structure CreateRequest where
  type : Option String
  payload : Option String
deriving DecidableEq, Repr

/-- An HTTP response of the create endpoint: status code plus the serialised
notification on success. -/
structure CreateResponse where
  status : Nat
  body : Option NotifDict
deriving DecidableEq, Repr

/-- `uuid.uuid4()` for the new row, modelled as a fresh opaque string derived
from the state. -/
def freshId (st : SystemState) : String :=
  "uuid-" ++ toString st.nextSeq

/-- The server-default `now()` timestamp, modelled as an opaque constant. -/
def freshCreatedAt : Option String :=
  some "now"

/-- `main.py` `create_notification`: reject with 400 when `type` or `payload`
is absent; otherwise insert the row (the sequence assigns `seq`), commit,
serialise it, `broadcaster.broadcast` the dict, and return it with 201. -/
def create_notification (data : CreateRequest) (st : SystemState) :
    CreateResponse × SystemState :=
  match data.type, data.payload with
  | some t, some p =>
      let n : Notification :=
        { id := freshId st, seq := st.nextSeq, type := t, payload := p,
          created_at := freshCreatedAt }
      let st1 : SystemState :=
        { store := st.store ++ [n], nextSeq := st.nextSeq + 1,
          broadcaster := st.broadcaster.broadcast n.to_dict }
      ({ status := 201, body := some n.to_dict }, st1)
  | _, _ => ({ status := 400, body := none }, st)

/-- The response body of `GET /api/notifications`. -/
structure PollResponse where
  items : List NotifDict
  next_after_seq : Int
deriving DecidableEq, Repr

/-- `main.py` `poll_notifications`: run the range query, serialise the rows,
and set `next_after_seq` to `results[-1]["seq"]` when `results` is non-empty
and to the input `after_seq` otherwise. The handler performs no writes, so
the state is returned unchanged. -/
def poll_notifications (after_seq : Int) (limit : Nat) (st : SystemState) :
    PollResponse × SystemState :=
  let results := (storeRange st.store after_seq limit).map Notification.to_dict
  let nxt : Int :=
    match results.getLast? with
    | some r => r.seq
    | none => after_seq
  ({ items := results, next_after_seq := nxt }, st)

/-- A frame yielded by the SSE `event_generator`: either
`id: {seq}\nevent: notification\ndata: {json}\n\n` or the keep-alive comment
`: ping\n\n`. -/
inductive Frame
  | event (id : Int) (d : NotifDict)
  | ping
deriving DecidableEq, Repr

/-- Protocol-level actions of an adapter, recorded so the order of the
backlog query and the Broadcaster registration is observable. -/
inductive ProtoEvent
  | queryBacklog
  | subscribeEvt
deriving DecidableEq, Repr

/-- Control state of the SSE `event_generator` in `main.py`: before the
backlog query (`start`), yielding the fetched backlog (`catchup`, carrying
the `cursor` variable and the rows still to yield), the live loop (`live`,
carrying the — from here on unmodified — `cursor` and the subscribed queue),
or finished. -/
inductive SsePhase
  | start (cursor : Int)
  | catchup (cursor : Int) (pending : List Notification)
  | live (cursor : Int) (q : Nat)
  | done
deriving DecidableEq, Repr

/-- One scheduled event while an SSE connection is open: a concurrent
`POST /api/notifications` request, the generator advancing to its next
suspension point, one iteration of the live loop (`queue.get` with the 15
second timeout), or the client disconnecting. -/
inductive SseAction
  | writerCreate (t p : String)
  | proceed
  | tick
  | disconnect
deriving DecidableEq, Repr

/-- `cursor = last_event_id or 0`: both `None` and `0` give `0`. -/
def sseInit (last_event_id : Option Int) : SsePhase :=
  SsePhase.start (last_event_id.getD 0)

/-- One step of the SSE `event_generator` (with concurrent writers):
 * `start`: run the backlog query `storeRange store cursor 200`;
 * `catchup`: yield one backlog frame and set `cursor = item.seq`, or — when
   the backlog is exhausted — `broadcaster.subscribe()` and enter the live
   loop;
 * `tick` in `live`: `queue.get()` yields the front message as a frame, or on
   the 15-second timeout yields the `: ping` keep-alive; the `cursor` is not
   consulted or advanced in either case;
 * `disconnect` in `live`: `request.is_disconnected()` breaks the loop, and
   the `finally` block runs `broadcaster.unsubscribe(queue)`. -/
def sseStep (st : SystemState) (ph : SsePhase) (a : SseAction) :
    SystemState × SsePhase × List Frame × List ProtoEvent :=
  match a, ph with
  | .writerCreate t p, _ =>
      ((create_notification { type := some t, payload := some p } st).2,
       ph, [], [])
  | .proceed, .start c =>
      (st, .catchup c (storeRange st.store c 200), [], [.queryBacklog])
  | .proceed, .catchup _ (item :: rest) =>
      (st, .catchup item.seq rest, [Frame.event item.seq item.to_dict], [])
  | .proceed, .catchup c [] =>
      let (q, b) := st.broadcaster.subscribe
      ({ st with broadcaster := b }, .live c q, [], [.subscribeEvt])
  | .tick, .live c q =>
      match st.broadcaster.popFront q with
      | (some m, b) =>
          ({ st with broadcaster := b }, .live c q, [Frame.event m.seq m], [])
      | (none, _) => (st, .live c q, [Frame.ping], [])
  | .disconnect, .live _ q =>
      ({ st with broadcaster := st.broadcaster.unsubscribe q }, .done, [], [])
  | _, _ => (st, ph, [], [])

/-- Run the SSE machine over a schedule, collecting frames and protocol
events in order. -/
def sseRun (acts : List SseAction) (st : SystemState) (ph : SsePhase) :
    SystemState × SsePhase × List Frame × List ProtoEvent :=
  match acts with
  | [] => (st, ph, [], [])
  | a :: rest =>
      let (st1, ph1, fs, es) := sseStep st ph a
      let (st2, ph2, fs2, es2) := sseRun rest st1 ph1
      (st2, ph2, fs ++ fs2, es ++ es2)

/-- A message sent to a WebSocket client: `{type: "notification", data: d}`
or a close frame with its close code. -/
inductive WsOut
  | notification (d : NotifDict)
  | close (code : Nat)
deriving DecidableEq, Repr

/-- How the wait for the first inbound WebSocket message resolves: the
5-second `asyncio.wait_for` timeout, a `json.JSONDecodeError` from
`receive_json`, a valid JSON value that is not a dict (a list, string,
number, …) — on which `hello_msg.get` raises `AttributeError` — or a parsed
JSON dict whose `type` and `last_seq` keys may each be absent. -/
inductive WsHello
  | timeout
  | malformed
  | nonDict
  | msg (t : Option String) (last_seq : Option Int)
deriving DecidableEq, Repr

/-- The handshake outcomes that are not a well-formed hello: timeout,
decode error, a non-dict JSON value, or a dict whose `type` is not
`"hello"`. -/
def WsHello.violation : WsHello → Bool
  | .timeout => true
  | .malformed => true
  | .nonDict => true
  | .msg t _ => decide (t ≠ some "hello")

/-- The handshake outcomes that `websocket_endpoint` answers with
`close(code=1008)`: `asyncio.TimeoutError` and `json.JSONDecodeError` are in
the `except` tuple, and a dict whose `type` is not `"hello"` reaches the
explicit `close` call — but the `AttributeError` raised by
`hello_msg.get` on a non-dict JSON value is caught nowhere, so no close
frame is sent on that path. -/
def WsHello.closes1008 : WsHello → Bool
  | .timeout => true
  | .malformed => true
  | .nonDict => false
  | .msg t _ => decide (t ≠ some "hello")

/-- Control state of `websocket_endpoint`: waiting for the hello message
(the queue from `broadcaster.subscribe()` already in hand), the live phase
(`push_updates` task plus the `receive_text` wait), closed by the handler,
or aborted by an uncaught exception that propagated out of the handler
(after the `finally` cleanup) with no close frame sent by it. -/
inductive WsPhase
  | awaitHello (q : Nat)
  | live (q : Nat)
  | closed
  | errored
deriving DecidableEq, Repr

/-- One scheduled event while a WebSocket connection is open: a concurrent
`POST /api/notifications`, the resolution of the hello wait, one
`queue.get()`/`send_json` iteration of `push_updates`, or a
`WebSocketDisconnect`. -/
inductive WsAction
  | writerCreate (t p : String)
  | hello (h : WsHello)
  | deliver
  | disconnect
deriving DecidableEq, Repr

/-- Connection setup of `websocket_endpoint`: `await websocket.accept()`
followed immediately by `queue = await broadcaster.subscribe()` — the
subscription exists before the hello handshake is even awaited. -/
def wsInit (st : SystemState) : SystemState × WsPhase × List ProtoEvent :=
  let (q, b) := st.broadcaster.subscribe
  ({ st with broadcaster := b }, WsPhase.awaitHello q, [ProtoEvent.subscribeEvt])

/-- One step of `websocket_endpoint` (with concurrent writers):
 * `hello` while awaiting the handshake: on timeout, decode error, or a
   first message whose `type` is not `"hello"`, `close(code=1008)` and
   return, the `finally` block unsubscribing the queue; on a valid JSON
   value that is not a dict, `hello_msg.get("type")` raises
   `AttributeError`, which is absent from the
   `except (asyncio.TimeoutError, json.JSONDecodeError, KeyError)` tuple —
   the exception propagates, only the `finally` unsubscription runs, and no
   close frame is sent; on a well-formed hello,
   `last_seq = hello_msg.get("last_seq", 0)`, run the backlog query
   `storeRange store last_seq 200` and send every row as a
   `{type: "notification", data: ...}` message, then enter the live phase;
 * `deliver` in `live`: `push_updates` sends the front queue message
   unconditionally (no watermark comparison in the code);
 * `disconnect` in `live`: `WebSocketDisconnect` cancels `push_updates` and
   the `finally` block unsubscribes the queue. -/
def wsStep (st : SystemState) (ph : WsPhase) (a : WsAction) :
    SystemState × WsPhase × List WsOut × List ProtoEvent :=
  match a, ph with
  | .writerCreate t p, _ =>
      ((create_notification { type := some t, payload := some p } st).2,
       ph, [], [])
  | .hello h, .awaitHello q =>
      match h with
      | .msg t ls =>
          if t = some "hello" then
            let last_seq := ls.getD 0
            let backlog := storeRange st.store last_seq 200
            (st, .live q, backlog.map (fun n => WsOut.notification n.to_dict),
             [.queryBacklog])
          else
            ({ st with broadcaster := st.broadcaster.unsubscribe q },
             .closed, [WsOut.close 1008], [])
      | .nonDict =>
          ({ st with broadcaster := st.broadcaster.unsubscribe q },
           .errored, [], [])
      | _ =>
          ({ st with broadcaster := st.broadcaster.unsubscribe q },
           .closed, [WsOut.close 1008], [])
  | .deliver, .live q =>
      match st.broadcaster.popFront q with
      | (some m, b) =>
          ({ st with broadcaster := b }, .live q, [WsOut.notification m], [])
      | (none, _) => (st, .live q, [], [])
  | .disconnect, .live q =>
      ({ st with broadcaster := st.broadcaster.unsubscribe q },
       .closed, [], [])
  | _, _ => (st, ph, [], [])

/-- Run the WebSocket machine over a schedule, collecting outbound messages
and protocol events in order. -/
def wsRun (acts : List WsAction) (st : SystemState) (ph : WsPhase) :
    SystemState × WsPhase × List WsOut × List ProtoEvent :=
  match acts with
  | [] => (st, ph, [], [])
  | a :: rest =>
      let (st1, ph1, os, es) := wsStep st ph a
      let (st2, ph2, os2, es2) := wsRun rest st1 ph1
      (st2, ph2, os ++ os2, es ++ es2)

/-- An initial server state: empty table, database sequence at 1, no
subscribers. -/
def st0 : SystemState :=
  { store := [], nextSeq := 1, broadcaster := { subscribers := [], nextId := 0 } }

/-- A state with one registered subscription whose mailbox is empty. -/
def stIdle : SystemState :=
  { store := [], nextSeq := 1,
    broadcaster := { subscribers := [(0, [])], nextId := 1 } }

/-- The dict of the first notification created from `st0` with type `"A"`
and payload `"p"`. -/
def dictA : NotifDict :=
  { id := "uuid-1", seq := 1, type := "A", payload := "p",
    created_at := some "now" }

/-- Any element surviving `Broadcaster.unsubscribe q` has a key other
than `q`. -/
theorem mem_unsubscribe {b : Broadcaster} {q : Nat} {s : Nat × List NotifDict}
    (hs : s ∈ (b.unsubscribe q).subscribers) : s.1 ≠ q := by
  simp only [Broadcaster.unsubscribe, List.mem_filter, decide_eq_true_eq] at hs
  exact hs.2

/-- C7: Polling is idempotent and side-effect-free: the handler returns the
system state unchanged (store, broadcaster subscriber set and mailboxes all
untouched), and running it again on the resulting state returns the identical
response. -/
theorem C7_poll_pure (a : Int) (l : Nat) (st : SystemState) :
    (poll_notifications a l st).2 = st
    ∧ poll_notifications a l ((poll_notifications a l st).2)
        = poll_notifications a l st
    ∧ (poll_notifications a l st).2.store = st.store
    ∧ (poll_notifications a l st).2.broadcaster = st.broadcaster :=
  ⟨rfl, rfl, rfl, rfl⟩

/-- C9: `create_notification` validates before any state change: whenever the
request body lacks `type` or `payload`, the response is 400 and the store,
the database sequence, and the broadcaster (so nothing was published) are
all unchanged. -/
theorem C9_validation_before_state_change (data : CreateRequest)
    (st : SystemState) (h : data.type = none ∨ data.payload = none) :
    (create_notification data st).1.status = 400
    ∧ (create_notification data st).2.store = st.store
    ∧ (create_notification data st).2.nextSeq = st.nextSeq
    ∧ (create_notification data st).2.broadcaster = st.broadcaster := by
  obtain ⟨ty, pl⟩ := data
  rcases h with h | h
  · subst h
    cases pl <;> exact ⟨rfl, rfl, rfl, rfl⟩
  · subst h
    cases ty <;> exact ⟨rfl, rfl, rfl, rfl⟩

/-- C9 witness: a request missing both fields is rejected with the state
intact. -/
theorem C9_witness :
    (create_notification { type := none, payload := none } st0).1.status = 400
    ∧ (create_notification { type := none, payload := none } st0).2.store
        = st0.store
    ∧ (create_notification { type := none, payload := none } st0).2.nextSeq
        = st0.nextSeq
    ∧ (create_notification { type := none, payload := none } st0).2.broadcaster
        = st0.broadcaster :=
  C9_validation_before_state_change { type := none, payload := none } st0
    (Or.inl rfl)

/-- C6: the create endpoint answers 400 (with no body and no new row) when
`type` or `payload` is absent, and 201 with the full serialised record —
`id`, `seq`, `type`, `payload`, `created_at` — when both are present. -/
theorem C6_create_endpoint (st : SystemState) :
    (∀ data : CreateRequest, data.type = none ∨ data.payload = none →
        (create_notification data st).1 = { status := 400, body := none }
        ∧ (create_notification data st).2.store = st.store)
    ∧ ∀ t p : String,
        (create_notification { type := some t, payload := some p } st).1.status
          = 201
        ∧ (create_notification { type := some t, payload := some p } st).1.body
          = some { id := freshId st, seq := st.nextSeq, type := t,
                   payload := p, created_at := freshCreatedAt } := by
  refine ⟨?_, fun t p => ⟨rfl, rfl⟩⟩
  rintro ⟨ty, pl⟩ (h | h)
  · subst h
    cases pl <;> exact ⟨rfl, rfl⟩
  · subst h
    cases ty <;> exact ⟨rfl, rfl⟩

/-- C6 witness: a body without `payload` gets 400; a complete body gets 201. -/
theorem C6_witness :
    (create_notification { type := some "A", payload := none } st0).1
      = { status := 400, body := none }
    ∧ (create_notification { type := some "A", payload := some "p" } st0).1.status
      = 201 :=
  ⟨((C6_create_endpoint st0).1 { type := some "A", payload := none }
      (Or.inr rfl)).1,
   ((C6_create_endpoint st0).2 "A" "p").1⟩

/-- C8: in the SSE live loop, when the subscribed queue is empty and the
15-second `asyncio.wait_for` timeout fires, the generator yields the
`: ping` keep-alive comment, stays in the live phase with the same cursor
(the watermark is not advanced), and leaves the system state untouched. -/
theorem C8_keepalive (st : SystemState) (c : Int) (q : Nat)
    (hq : (st.broadcaster.popFront q).1 = none) :
    sseStep st (SsePhase.live c q) SseAction.tick
      = (st, SsePhase.live c q, [Frame.ping], []) := by
  rcases hp : st.broadcaster.popFront q with ⟨m, b⟩
  cases m with
  | some v =>
      rw [hp] at hq
      cases hq
  | none => simp [sseStep, hp]

/-- C8 witness: an idle subscriber's timeout tick produces exactly the
keep-alive frame. -/
theorem C8_witness :
    sseStep stIdle (SsePhase.live 5 0) SseAction.tick
      = (stIdle, SsePhase.live 5 0, [Frame.ping], []) :=
  C8_keepalive stIdle 5 0 rfl

/-- C1: the SSE adapter loses a concurrent write. A client connects with
cursor 0 to the empty store, the generator runs its backlog query (empty), a
writer then creates the notification with seq 1, the generator subscribes,
ticks once (timeout: only a ping), and the client disconnects. The client
received no notification frame at all, yet a notification with seq 1 > 0 was
created while it was connected — refuting exactly-once delivery. -/
theorem C1_sse_lost_write :
    (sseRun [SseAction.proceed, SseAction.writerCreate "A" "p",
             SseAction.proceed, SseAction.tick, SseAction.disconnect]
        st0 (sseInit (some 0))).2.2.1 = [Frame.ping]
    ∧ ((sseRun [SseAction.proceed, SseAction.writerCreate "A" "p",
              SseAction.proceed, SseAction.tick, SseAction.disconnect]
          st0 (sseInit (some 0))).1.store.map Notification.seq) = [1]
    ∧ (sseRun [SseAction.proceed, SseAction.writerCreate "A" "p",
              SseAction.proceed, SseAction.tick, SseAction.disconnect]
          st0 (sseInit (some 0))).2.1 = SsePhase.done :=
  ⟨rfl, rfl, rfl⟩

/-- C2: the SSE `event_generator` runs the backlog query strictly before
registering its subscription — its protocol trace is
`[queryBacklog, subscribeEvt]` — while the WebSocket handler subscribes at
accept time; so not every adapter subscribes before reading the backlog. -/
theorem C2_sse_backlog_before_subscribe :
    (sseRun [SseAction.proceed, SseAction.proceed] st0 (sseInit none)).2.2.2
      = [ProtoEvent.queryBacklog, ProtoEvent.subscribeEvt]
    ∧ (wsInit st0).2.2 = [ProtoEvent.subscribeEvt]
    ∧ (sseRun [SseAction.proceed, SseAction.proceed] st0 (sseInit none)).2.1
      = SsePhase.live 0 0 :=
  ⟨rfl, rfl, rfl⟩

/-- C3: the WebSocket live drain has no watermark filter. With an empty
store, a client subscribes (at accept), a writer creates seq 1 (which lands
in the mailbox), the hello with `last_seq = 0` arrives and the backlog query
returns seq 1 (sent once), then `push_updates` sends the mailbox copy of
seq 1 again: the same notification is delivered twice instead of the mailbox
copy being discarded. -/
theorem C3_ws_duplicate_delivery :
    (wsRun [WsAction.writerCreate "A" "p",
            WsAction.hello (WsHello.msg (some "hello") (some 0)),
            WsAction.deliver, WsAction.disconnect]
        (wsInit st0).1 (wsInit st0).2.1).2.2.1
      = [WsOut.notification dictA, WsOut.notification dictA]
    ∧ dictA.seq = 1 :=
  ⟨rfl, rfl⟩

/-- C4 counterexample: two parts of the claim fail on concrete runs. First,
on a run whose handshake times out — closed with code 1008, no backlog — a
Subscription had nevertheless been registered with the Broadcaster: right
after `websocket.accept()` the subscriber set already has one entry, because
`broadcaster.subscribe()` precedes the hello wait. Second, a first message
that is valid JSON but not a dict (e.g. `[1, 2]`) is not a well-formed
hello, yet the run emits no close frame at all — `hello_msg.get` raises an
`AttributeError` that no `except` clause catches — so the connection is not
closed with code 1008 either. -/
theorem C4_counterexample :
    (wsInit st0).1.broadcaster.subscribers.length = 1
    ∧ (wsRun [WsAction.hello WsHello.timeout]
          (wsInit st0).1 (wsInit st0).2.1).2.2.1 = [WsOut.close 1008]
    ∧ (wsRun [WsAction.hello WsHello.nonDict]
          (wsInit st0).1 (wsInit st0).2.1).2.2.1 = []
    ∧ (wsRun [WsAction.hello WsHello.nonDict]
          (wsInit st0).1 (wsInit st0).2.1).2.1 = WsPhase.errored :=
  ⟨rfl, rfl, rfl, rfl⟩

/-- C4 amended: when the first inbound message is not a well-formed hello
(or none arrives within the 5-second timeout), no backlog item is sent and
the Subscription — which the handler registers at accept time, before the
handshake — is unregistered on exit, so none survives. The connection is
closed with code 1008 on timeout, malformed JSON, or a dict whose type is
not `"hello"`; but on a valid-JSON non-dict first message the handler
aborts on an uncaught `AttributeError` without sending any close frame. -/
theorem C4_amended_violation_cleanup (st : SystemState) (h : WsHello)
    (hb : h.violation = true) :
    (wsRun [WsAction.hello h] (wsInit st).1 (wsInit st).2.1).2.2.1
      = (if h.closes1008 = true then [WsOut.close 1008] else [])
    ∧ (wsRun [WsAction.hello h] (wsInit st).1 (wsInit st).2.1).2.1
      = (if h.closes1008 = true then WsPhase.closed else WsPhase.errored)
    ∧ (∀ d, WsOut.notification d
        ∉ (wsRun [WsAction.hello h] (wsInit st).1 (wsInit st).2.1).2.2.1)
    ∧ ∀ s ∈ (wsRun [WsAction.hello h]
          (wsInit st).1 (wsInit st).2.1).1.broadcaster.subscribers,
        s.1 ≠ st.broadcaster.nextId := by
  cases h with
  | timeout =>
      refine ⟨rfl, rfl, fun d hd => ?_, fun s hs => mem_unsubscribe hs⟩
      simp [wsRun, wsStep, wsInit, Broadcaster.subscribe] at hd
  | malformed =>
      refine ⟨rfl, rfl, fun d hd => ?_, fun s hs => mem_unsubscribe hs⟩
      simp [wsRun, wsStep, wsInit, Broadcaster.subscribe] at hd
  | nonDict =>
      refine ⟨rfl, rfl, fun d hd => ?_, fun s hs => mem_unsubscribe hs⟩
      simp [wsRun, wsStep, wsInit, Broadcaster.subscribe] at hd
  | msg t ls =>
      have hb' : t ≠ some "hello" := by
        simpa [WsHello.violation] using hb
      have hc : (WsHello.msg t ls).closes1008 = true := by
        simp only [WsHello.closes1008, decide_eq_true_eq]
        exact hb'
      refine ⟨?_, ?_, fun d hd => ?_, fun s hs => ?_⟩
      · rw [if_pos hc]
        simp only [wsRun, wsStep, wsInit, Broadcaster.subscribe, if_neg hb',
          List.append_nil]
      · rw [if_pos hc]
        simp only [wsRun, wsStep, wsInit, Broadcaster.subscribe, if_neg hb']
      · simp only [wsRun, wsStep, wsInit, Broadcaster.subscribe,
          if_neg hb', List.append_nil] at hd
        simp at hd
      · simp only [wsRun, wsStep, wsInit, Broadcaster.subscribe,
          if_neg hb'] at hs
        exact mem_unsubscribe hs

/-- C4 witness: a first message of type `"subscribe"` is a violation closed
with 1008, while a non-dict first message yields no close frame. -/
theorem C4_witness :
    (wsRun [WsAction.hello (WsHello.msg (some "subscribe") (some 3))]
        (wsInit st0).1 (wsInit st0).2.1).2.2.1 = [WsOut.close 1008]
    ∧ (wsRun [WsAction.hello WsHello.nonDict]
        (wsInit st0).1 (wsInit st0).2.1).2.2.1 = [] :=
  ⟨(C4_amended_violation_cleanup st0
      (WsHello.msg (some "subscribe") (some 3)) rfl).1,
   (C4_amended_violation_cleanup st0 WsHello.nonDict rfl).1⟩

/-- C5: the polling handler's `next_after_seq` is the input cursor when no
item matched and the last returned item's `seq` otherwise, and the returned
items are stored notifications with `seq > after_seq`, ascending, at most
`limit` many — and all of them whenever fewer than `limit` were returned. -/
theorem C5_poll_contract (a : Int) (l : Nat) (st : SystemState) :
    ((poll_notifications a l st).1.items = [] →
        (poll_notifications a l st).1.next_after_seq = a)
    ∧ (∀ r, (poll_notifications a l st).1.items.getLast? = some r →
        (poll_notifications a l st).1.next_after_seq = r.seq)
    ∧ (poll_notifications a l st).1.items.length ≤ l
    ∧ (poll_notifications a l st).1.items.Pairwise (fun x y => x.seq ≤ y.seq)
    ∧ (∀ d ∈ (poll_notifications a l st).1.items,
        ∃ n ∈ st.store, a < n.seq ∧ d = n.to_dict)
    ∧ ((poll_notifications a l st).1.items.length < l →
        ∀ n ∈ st.store, a < n.seq →
          n.to_dict ∈ (poll_notifications a l st).1.items) := by
  have hitems : (poll_notifications a l st).1.items
      = (storeRange st.store a l).map Notification.to_dict := rfl
  have hsorted : (storeRange st.store a l).Pairwise seqLE :=
    List.Pairwise.sublist (List.take_sublist _ _)
      (List.sorted_insertionSort seqLE
        (st.store.filter (fun n => decide (a < n.seq))))
  have hmem : ∀ n ∈ storeRange st.store a l, n ∈ st.store ∧ a < n.seq := by
    intro n hn
    have h2 : n ∈ List.insertionSort seqLE
        (st.store.filter (fun n => decide (a < n.seq))) :=
      (List.take_sublist _ _).subset hn
    have h3 := (List.perm_insertionSort seqLE _).mem_iff.mp h2
    simpa using List.mem_filter.mp h3
  have hcomp : (storeRange st.store a l).length < l →
      ∀ n ∈ st.store, a < n.seq → n ∈ storeRange st.store a l := by
    intro hlen n hn hlt
    have hyslen : (List.insertionSort seqLE
        (st.store.filter (fun n => decide (a < n.seq)))).length < l := by
      rw [storeRange, List.length_take] at hlen
      omega
    have heq : storeRange st.store a l
        = List.insertionSort seqLE
            (st.store.filter (fun n => decide (a < n.seq))) := by
      rw [storeRange]
      exact List.take_of_length_le (le_of_lt hyslen)
    rw [heq]
    exact (List.perm_insertionSort seqLE _).mem_iff.mpr
      (List.mem_filter.mpr ⟨hn, by simpa using hlt⟩)
  refine ⟨?_, ?_, ?_, ?_, ?_, ?_⟩
  · intro h
    rw [hitems] at h
    show (match ((storeRange st.store a l).map Notification.to_dict).getLast? with
          | some r => r.seq
          | none => a) = a
    rw [h]
    rfl
  · intro r hr
    rw [hitems] at hr
    show (match ((storeRange st.store a l).map Notification.to_dict).getLast? with
          | some r => r.seq
          | none => a) = r.seq
    rw [hr]
  · rw [hitems, List.length_map, storeRange, List.length_take]
    exact min_le_left _ _
  · rw [hitems, List.pairwise_map]
    exact hsorted.imp (fun h => h)
  · intro d hd
    rw [hitems] at hd
    obtain ⟨n, hnxs, hfd⟩ := List.mem_map.mp hd
    obtain ⟨hstore, hlt⟩ := hmem n hnxs
    exact ⟨n, hstore, hlt, hfd.symm⟩
  · intro hlen n hn hlt
    rw [hitems, List.length_map] at hlen
    rw [hitems]
    exact List.mem_map_of_mem _ (hcomp hlen n hn hlt)

/-- C5 witness: polling the empty store leaves the cursor unchanged. -/
theorem C5_witness :
    (poll_notifications 7 2 st0).1.next_after_seq = 7 :=
  (C5_poll_contract 7 2 st0).1 rfl

/-- A one-row store, used to instantiate the C10 theorem. -/
def stOne : SystemState :=
  { store := [{ id := "a", seq := 1, type := "A", payload := "p",
                created_at := none }],
    nextSeq := 2, broadcaster := { subscribers := [], nextId := 0 } }

/-- C10: a first message of type `"hello"` without a `last_seq` field is not
a protocol violation: the step equals the one for an explicit
`last_seq = 0` (the `hello_msg.get("last_seq", 0)` default), the handler
enters the live phase, and the backlog sent is the range query from cursor
0 — which, for a sorted store of positive `seq`s with at most 200 rows, is
the entire store. -/
theorem C10_hello_defaults_last_seq (st : SystemState) :
    (WsHello.msg (some "hello") none).violation = false
    ∧ wsStep (wsInit st).1 (wsInit st).2.1
        (WsAction.hello (WsHello.msg (some "hello") none))
      = wsStep (wsInit st).1 (wsInit st).2.1
        (WsAction.hello (WsHello.msg (some "hello") (some 0)))
    ∧ (wsStep (wsInit st).1 (wsInit st).2.1
        (WsAction.hello (WsHello.msg (some "hello") none))).2.1
      = WsPhase.live st.broadcaster.nextId
    ∧ (wsStep (wsInit st).1 (wsInit st).2.1
        (WsAction.hello (WsHello.msg (some "hello") none))).2.2.1
      = (storeRange st.store 0 200).map (fun n => WsOut.notification n.to_dict)
    ∧ (st.store.Pairwise seqLE → (∀ n ∈ st.store, 1 ≤ n.seq) →
        st.store.length ≤ 200 →
        (wsStep (wsInit st).1 (wsInit st).2.1
            (WsAction.hello (WsHello.msg (some "hello") none))).2.2.1
          = st.store.map (fun n => WsOut.notification n.to_dict)) := by
  refine ⟨rfl, rfl, rfl, rfl, ?_⟩
  intro hsorted hpos hlen
  have hrange : storeRange st.store 0 200 = st.store := by
    rw [storeRange]
    have hf : st.store.filter (fun n => decide ((0 : Int) < n.seq))
        = st.store := by
      apply List.filter_eq_self.mpr
      intro n hn
      have := hpos n hn
      simp only [decide_eq_true_eq]
      omega
    rw [hf, List.Sorted.insertionSort_eq hsorted]
    exact List.take_of_length_le hlen
  show (storeRange st.store 0 200).map (fun n => WsOut.notification n.to_dict)
      = st.store.map (fun n => WsOut.notification n.to_dict)
  rw [hrange]

/-- C10 witness: against a one-row store, the hello without `last_seq`
receives that whole store as backlog. -/
theorem C10_witness :
    (wsStep (wsInit stOne).1 (wsInit stOne).2.1
        (WsAction.hello (WsHello.msg (some "hello") none))).2.2.1
      = stOne.store.map (fun n => WsOut.notification n.to_dict) :=
  (C10_hello_defaults_last_seq stOne).2.2.2.2
    (by simp [stOne]) (by decide) (by decide)

end Spec2Proof
